import Mathlib

/-!
Shallow embedding of the netCDF-viewer comparison service
(`src/netcdf_viewer/services/compare_service.py` and
`src/netcdf_viewer/models/comparison_result.py`).

The CSV difference parser `_parse_csv_for_summary_and_diffs` is embedded as a
fold over the list of CSV data rows (each row a `List String`, as produced by
Python's `csv.reader`); the orchestrator `run_comparison` is embedded as a
pure function over an explicit environment record that supplies the results
of the external `ncompare` calls and of the filesystem queries.

Python string primitives (`str.strip`, `str.lower`, `str.isdigit`, `int(...)`,
the `in` substring test) are modelled over character lists.  The model is
faithful for ASCII text (the only text the parser's fixed needles and the
ncompare CSV layout use); Python's Unicode-digit acceptance and the
underscore digit-group separator of `int` are outside the model.
-/

/-- Python `str.isspace` character class as used by `str.strip()` (ASCII part). -/
def pyIsSpace (c : Char) : Bool :=
  c == ' ' || c == '\t' || c == '\n' || c == '\r' || c == '\x0b' || c == '\x0c'

/-- Strip leading and trailing whitespace from a character list. -/
def stripChars (cs : List Char) : List Char :=
  ((cs.dropWhile pyIsSpace).reverse.dropWhile pyIsSpace).reverse

/-- Python `s.strip()`. -/
def pyStrip (s : String) : String := ⟨stripChars s.data⟩

/-- Lower-case one character (ASCII). -/
def pyLowerChar (c : Char) : Char :=
  if 'A' ≤ c ∧ c ≤ 'Z' then Char.ofNat (c.toNat + 32) else c

/-- Python `s.lower()` (ASCII). -/
def pyLower (s : String) : String := ⟨s.data.map pyLowerChar⟩

/-- Python `s.isdigit()`: non-empty and all digits (ASCII model). -/
def pyIsDigit (s : String) : Bool := !s.data.isEmpty && s.data.all Char.isDigit

/-- Numeric value of a digit string. -/
def digitsToNat (cs : List Char) : Nat := cs.foldl (fun n c => n * 10 + (c.toNat - 48)) 0

/-- Value of a string that passed `isdigit` (what `int(val)` returns there). -/
def digitsVal (s : String) : Int := Int.ofNat (digitsToNat s.data)

/-- Unsigned part of Python `int(...)` parsing. -/
def pyIntCore (ds : List Char) : Option Int :=
  if ds.isEmpty then none
  else if ds.all Char.isDigit then some (Int.ofNat (digitsToNat ds)) else none

/-- Python `int(s)`: optional surrounding whitespace, optional sign, digits;
`none` models the `ValueError` raise. -/
def pyInt? (s : String) : Option Int :=
  match stripChars s.data with
  | '+' :: rest => pyIntCore rest
  | '-' :: rest => (pyIntCore rest).map (fun n => -n)
  | cs => pyIntCore cs

/-- `needle` occurs at the start of `hay`. -/
def isPrefixList : List Char → List Char → Bool
  | [], _ => true
  | _ :: _, [] => false
  | n :: ns, h :: hs => n == h && isPrefixList ns hs

/-- `needle` occurs somewhere in `hay`. -/
def containsList (needle : List Char) : List Char → Bool
  | [] => needle.isEmpty
  | h :: hs => isPrefixList needle (h :: hs) || containsList needle hs

/-- Python `needle in hay` on strings. -/
def pyIn (needle hay : String) : Bool := containsList needle.data hay.data

/-! ## CSV difference parser state

Mirrors the local variables of `_parse_csv_for_summary_and_diffs`
(`compare_service.py` lines 83–123). -/

/-- The mutable locals of the parser loop: six counters, the `attr_diffs`
counter, and the accumulated detail rows. -/
structure ParseState where
  var_left : Int := 0
  var_right : Int := 0
  var_shared : Int := 0
  grp_left : Int := 0
  grp_right : Int := 0
  grp_shared : Int := 0
  attr_diffs : Nat := 0
  details : List (String × String × String) := []
deriving Repr, DecidableEq

/-- The fixed structural labels of the `attr_diffs` test
(`("dtype", "dimensions", "shape", "chunksize")` in the source). -/
def structuralLabels : List String := ["dtype", "dimensions", "shape", "chunksize"]

/-- The `if marker == "***"` block: append the detail row and conditionally
bump `attr_diffs`. -/
def updDetails (st : ParseState) (info val_a val_b marker : String) : ParseState :=
  if marker = "***" then
    { st with
      details := st.details ++ [(info, val_a, val_b)],
      attr_diffs :=
        if pyIn "attribute" (pyLower info) || !(structuralLabels.contains info) then
          st.attr_diffs + 1
        else st.attr_diffs }
  else st

/-- The `"Total # of shared variables"` block:
`var_shared = int(val_a) if val_a.isdigit() else int(val_b)` under
`try/except ValueError: pass`. -/
def updSharedVar (st : ParseState) (info val_a val_b : String) : ParseState :=
  if pyIn "Total # of shared variables" info then
    match (if pyIsDigit val_a then some (digitsVal val_a) else pyInt? val_b) with
    | some n => { st with var_shared := n }
    | none => st
  else st

/-- The `"Total # of non-shared variables"` block:
`var_left = int(val_a) if val_a.isdigit() else 0` and likewise `var_right`. -/
def updNonSharedVar (st : ParseState) (info val_a val_b : String) : ParseState :=
  if pyIn "Total # of non-shared variables" info then
    { st with
      var_left := if pyIsDigit val_a then digitsVal val_a else 0,
      var_right := if pyIsDigit val_b then digitsVal val_b else 0 }
  else st

/-- The `"Total # of shared groups"` block (same form as shared variables). -/
def updSharedGrp (st : ParseState) (info val_a val_b : String) : ParseState :=
  if pyIn "Total # of shared groups" info then
    match (if pyIsDigit val_a then some (digitsVal val_a) else pyInt? val_b) with
    | some n => { st with grp_shared := n }
    | none => st
  else st

/-- The `"Total # of non-shared groups"` block (same form as non-shared
variables). -/
def updNonSharedGrp (st : ParseState) (info val_a val_b : String) : ParseState :=
  if pyIn "Total # of non-shared groups" info then
    { st with
      grp_left := if pyIsDigit val_a then digitsVal val_a else 0,
      grp_right := if pyIsDigit val_b then digitsVal val_b else 0 }
  else st

/-- One iteration of the `for row in reader` loop.  Rows with fewer than 3
columns are skipped; `info`, `val_a`, `val_b` are the stripped first three
columns and `marker` the stripped fourth column when present, else `""`. -/
def stepRow (st : ParseState) (row : List String) : ParseState :=
  if row.length < 3 then st
  else
    let info := pyStrip (row.getD 0 "")
    let val_a := pyStrip (row.getD 1 "")
    let val_b := pyStrip (row.getD 2 "")
    let marker := if 3 < row.length then pyStrip (row.getD 3 "") else ""
    updNonSharedGrp
      (updSharedGrp
        (updNonSharedVar
          (updSharedVar (updDetails st info val_a val_b marker) info val_a val_b)
          info val_a val_b)
        info val_a val_b)
      info val_a val_b

/-- Run the parser loop over the data rows (the rows after the header). -/
def parseCsvRows (rows : List (List String)) : ParseState :=
  rows.foldl stepRow {}

/-- The tuple returned by `_parse_csv_for_summary_and_diffs`.  Note that the
seventh component is `len(details)` in the source, not the `attr_diffs`
counter. -/
structure ParseOutput where
  variables_only_in_a : Int
  variables_only_in_b : Int
  variables_shared : Int
  groups_only_in_a : Int
  groups_only_in_b : Int
  groups_shared : Int
  attribute_difference_count : Nat
  difference_details : List (String × String × String)
deriving Repr, DecidableEq

/-- `_parse_csv_for_summary_and_diffs` on the full row list of the CSV file:
`next(reader, None)` drops the header row, the loop folds over the rest, and
the return statement packages the counters with `len(details)`. -/
def parseCsv (allRows : List (List String)) : ParseOutput :=
  let st := parseCsvRows allRows.tail
  { variables_only_in_a := st.var_left
    variables_only_in_b := st.var_right
    variables_shared := st.var_shared
    groups_only_in_a := st.grp_left
    groups_only_in_b := st.grp_right
    groups_shared := st.grp_shared
    attribute_difference_count := st.details.length
    difference_details := st.details }

/-- A data row that the loop appends to the detail list: at least 3 columns
and stripped fourth column equal to the marker token. -/
def isDetailRow (row : List String) : Bool :=
  !(decide (row.length < 3)) &&
    ((if 3 < row.length then pyStrip (row.getD 3 "") else "") == "***")

/-- The stripped (description, value_a, value_b) triple stored for a detail
row. -/
def stripTriple (row : List String) : String × String × String :=
  (pyStrip (row.getD 0 ""), pyStrip (row.getD 1 ""), pyStrip (row.getD 2 ""))

/-- The attribute-difference count as the spec describes it: detail rows whose
description contains "attribute" (case-insensitively) OR is not one of the
structural labels.  (Stated from the spec's words, for comparison with what
the code returns.) -/
def attrDiffCountClaim (allRows : List (List String)) : Nat :=
  ((allRows.tail.filter isDetailRow).filter (fun r =>
    let info := pyStrip (r.getD 0 "")
    pyIn "attribute" (pyLower info) || !(structuralLabels.contains info))).length

/-! ## Variable collection (`_collect_variables_with_shapes`)

The file handles, `netCDF4`/`h5py` objects and `ncompare` getters are external;
the embedding receives the variables the getters would yield — each with its
name and its `shape` tuple of dimension lengths — and performs the same
arithmetic and assembly as the source loop. -/

/-- A variable as yielded by the file object: name and shape tuple. -/
structure SourceVar where
  name : String
  shape : List Nat
deriving Repr, DecidableEq

/-- A root group as traversed by the subgroup loop.  `ok = false` models the
`except (KeyError, TypeError): continue` path where the group is skipped. -/
structure FileGroup where
  ok : Bool
  gname : String
  vars : List SourceVar
deriving Repr, DecidableEq

/-- Python `str(shape)` on a tuple of ints. -/
def pyTupleRepr (shape : List Nat) : String :=
  match shape with
  | [] => "()"
  | [n] => "(" ++ toString n ++ ",)"
  | n :: rest =>
      "(" ++ toString n ++ String.join (rest.map (fun m => ", " ++ toString m)) ++ ")"

/-- One `result.append((name, shape_str, count))` entry: the count is built by
`count = 1` followed by `count *= int(s)` over the shape. -/
def mkTriple (fullName : String) (v : SourceVar) : String × String × Int :=
  (fullName, pyTupleRepr v.shape, v.shape.foldl (fun c s => c * Int.ofNat s) 1)

/-- `_collect_variables_with_shapes`: root-group variables first, then the
variables of each (non-skipped) root group under the `group/variable` name. -/
def collectVariablesWithShapes (rootVars : List SourceVar) (groups : List FileGroup) :
    List (String × String × Int) :=
  (rootVars.map (fun v => mkTriple v.name v)) ++
    (groups.filter (fun g => g.ok)).flatMap
      (fun g => g.vars.map (fun v => mkTriple (g.gname ++ "/" ++ v.name) v))

/-! ## Orchestrator (`run_comparison`)

`ComparisonOptions` and `ComparisonResult` mirror the dataclasses of
`models/comparison_result.py` (paths as strings).  `ExternalEnv` supplies
everything the orchestrator obtains from outside its own logic: validated
paths, the getters' dimension/variable lists, the integer returned by
`ncompare.compare`, the synthesized temp CSV path, the two `exists()`
answers, and the rows of the CSV file when it exists.  The model returns the
populated result together with the argument record passed to
`ncompare.compare`, so that option forwarding is visible. -/

/-- `ComparisonOptions` (frozen dataclass). -/
structure ComparisonOptions where
  only_differences : Bool := false
  include_attributes : Bool := true
  include_chunking : Bool := false
  report_text_path : String := ""
  report_csv_path : String := ""
deriving Repr, DecidableEq

/-- `ComparisonResult` (mutable dataclass, with its field defaults). -/
structure ComparisonResult where
  file_a_path : String := ""
  file_b_path : String := ""
  dimensions_a : List (String × Int) := []
  dimensions_b : List (String × Int) := []
  variables_a : List (String × String × Int) := []
  variables_b : List (String × String × Int) := []
  total_differences : Int := 0
  variables_only_in_a : Int := 0
  variables_only_in_b : Int := 0
  variables_shared : Int := 0
  groups_only_in_a : Int := 0
  groups_only_in_b : Int := 0
  groups_shared : Int := 0
  attribute_difference_count : Int := 0
  difference_details : List (String × String × String) := []
  report_text_path : String := ""
  report_csv_path : String := ""
deriving Repr, DecidableEq

/-- The keyword arguments of the `ncompare_compare(...)` call. -/
structure CompareCallArgs where
  only_diffs : Bool
  no_color : Bool
  show_chunks : Bool
  show_attributes : Bool
  file_text : String
  file_csv : String
  file_xlsx : String
deriving Repr, DecidableEq

/-- The externally supplied facts `run_comparison` consumes. -/
structure ExternalEnv where
  path_a : String
  path_b : String
  dims_a : List (String × Int)
  dims_b : List (String × Int)
  vars_a : List (String × String × Int)
  vars_b : List (String × String × Int)
  total : Int
  temp_csv_path : String
  csv_exists : Bool
  csv_rows : List (List String)
  txt_exists : Bool
deriving Repr, DecidableEq

/-- `run_comparison` (`compare_service.py` lines 126–191), as a pure function
of the options and the external environment.  Step for step: build the result
with the two paths; fill the per-file summaries from the getters; resolve the
report paths (`report_txt` is `None` when the option is empty, `report_csv`
falls back to the temp path); call `ncompare.compare` with the forwarded
options; store its return in `total_differences`; if the CSV file exists,
record its path and merge the parser's outputs; if a text report was
requested and exists, record its path. -/
def run_comparison (env : ExternalEnv) (options : ComparisonOptions) :
    ComparisonResult × CompareCallArgs :=
  let result0 : ComparisonResult :=
    { file_a_path := env.path_a
      file_b_path := env.path_b
      dimensions_a := env.dims_a
      dimensions_b := env.dims_b
      variables_a := env.vars_a
      variables_b := env.vars_b }
  let report_txt : Option String :=
    if options.report_text_path = "" then none else some options.report_text_path
  let report_csv : String :=
    if options.report_csv_path = "" then env.temp_csv_path else options.report_csv_path
  let args : CompareCallArgs :=
    { only_diffs := options.only_differences
      no_color := true
      show_chunks := options.include_chunking
      show_attributes := options.include_attributes
      file_text := report_txt.getD ""
      file_csv := report_csv
      file_xlsx := "" }
  let result1 := { result0 with total_differences := env.total }
  let result2 :=
    if env.csv_exists then
      let p := parseCsv env.csv_rows
      { result1 with
        report_csv_path := report_csv
        variables_only_in_a := p.variables_only_in_a
        variables_only_in_b := p.variables_only_in_b
        variables_shared := p.variables_shared
        groups_only_in_a := p.groups_only_in_a
        groups_only_in_b := p.groups_only_in_b
        groups_shared := p.groups_shared
        attribute_difference_count := (p.attribute_difference_count : Int)
        difference_details := p.difference_details }
    else result1
  let result3 :=
    match report_txt with
    | some t => if env.txt_exists then { result2 with report_text_path := t } else result2
    | none => result2
  (result3, args)

/-! ## Preservation lemmas: each update block touches only its own fields. -/

@[simp] lemma updDetails_var_left (st : ParseState) (i a b m : String) :
    (updDetails st i a b m).var_left = st.var_left := by
  unfold updDetails; repeat' split
  all_goals rfl

@[simp] lemma updDetails_var_right (st : ParseState) (i a b m : String) :
    (updDetails st i a b m).var_right = st.var_right := by
  unfold updDetails; repeat' split
  all_goals rfl

@[simp] lemma updDetails_var_shared (st : ParseState) (i a b m : String) :
    (updDetails st i a b m).var_shared = st.var_shared := by
  unfold updDetails; repeat' split
  all_goals rfl

@[simp] lemma updDetails_grp_left (st : ParseState) (i a b m : String) :
    (updDetails st i a b m).grp_left = st.grp_left := by
  unfold updDetails; repeat' split
  all_goals rfl

@[simp] lemma updDetails_grp_right (st : ParseState) (i a b m : String) :
    (updDetails st i a b m).grp_right = st.grp_right := by
  unfold updDetails; repeat' split
  all_goals rfl

@[simp] lemma updDetails_grp_shared (st : ParseState) (i a b m : String) :
    (updDetails st i a b m).grp_shared = st.grp_shared := by
  unfold updDetails; repeat' split
  all_goals rfl

@[simp] lemma updSharedVar_var_left (st : ParseState) (i a b : String) :
    (updSharedVar st i a b).var_left = st.var_left := by
  unfold updSharedVar; repeat' split
  all_goals rfl

@[simp] lemma updSharedVar_var_right (st : ParseState) (i a b : String) :
    (updSharedVar st i a b).var_right = st.var_right := by
  unfold updSharedVar; repeat' split
  all_goals rfl

@[simp] lemma updSharedVar_grp_left (st : ParseState) (i a b : String) :
    (updSharedVar st i a b).grp_left = st.grp_left := by
  unfold updSharedVar; repeat' split
  all_goals rfl

@[simp] lemma updSharedVar_grp_right (st : ParseState) (i a b : String) :
    (updSharedVar st i a b).grp_right = st.grp_right := by
  unfold updSharedVar; repeat' split
  all_goals rfl

@[simp] lemma updSharedVar_grp_shared (st : ParseState) (i a b : String) :
    (updSharedVar st i a b).grp_shared = st.grp_shared := by
  unfold updSharedVar; repeat' split
  all_goals rfl

@[simp] lemma updSharedVar_attr_diffs (st : ParseState) (i a b : String) :
    (updSharedVar st i a b).attr_diffs = st.attr_diffs := by
  unfold updSharedVar; repeat' split
  all_goals rfl

@[simp] lemma updSharedVar_details (st : ParseState) (i a b : String) :
    (updSharedVar st i a b).details = st.details := by
  unfold updSharedVar; repeat' split
  all_goals rfl

@[simp] lemma updNonSharedVar_var_shared (st : ParseState) (i a b : String) :
    (updNonSharedVar st i a b).var_shared = st.var_shared := by
  unfold updNonSharedVar; repeat' split
  all_goals rfl

@[simp] lemma updNonSharedVar_grp_left (st : ParseState) (i a b : String) :
    (updNonSharedVar st i a b).grp_left = st.grp_left := by
  unfold updNonSharedVar; repeat' split
  all_goals rfl

@[simp] lemma updNonSharedVar_grp_right (st : ParseState) (i a b : String) :
    (updNonSharedVar st i a b).grp_right = st.grp_right := by
  unfold updNonSharedVar; repeat' split
  all_goals rfl

@[simp] lemma updNonSharedVar_grp_shared (st : ParseState) (i a b : String) :
    (updNonSharedVar st i a b).grp_shared = st.grp_shared := by
  unfold updNonSharedVar; repeat' split
  all_goals rfl

@[simp] lemma updNonSharedVar_attr_diffs (st : ParseState) (i a b : String) :
    (updNonSharedVar st i a b).attr_diffs = st.attr_diffs := by
  unfold updNonSharedVar; repeat' split
  all_goals rfl

@[simp] lemma updNonSharedVar_details (st : ParseState) (i a b : String) :
    (updNonSharedVar st i a b).details = st.details := by
  unfold updNonSharedVar; repeat' split
  all_goals rfl

@[simp] lemma updSharedGrp_var_left (st : ParseState) (i a b : String) :
    (updSharedGrp st i a b).var_left = st.var_left := by
  unfold updSharedGrp; repeat' split
  all_goals rfl

@[simp] lemma updSharedGrp_var_right (st : ParseState) (i a b : String) :
    (updSharedGrp st i a b).var_right = st.var_right := by
  unfold updSharedGrp; repeat' split
  all_goals rfl

@[simp] lemma updSharedGrp_var_shared (st : ParseState) (i a b : String) :
    (updSharedGrp st i a b).var_shared = st.var_shared := by
  unfold updSharedGrp; repeat' split
  all_goals rfl

@[simp] lemma updSharedGrp_grp_left (st : ParseState) (i a b : String) :
    (updSharedGrp st i a b).grp_left = st.grp_left := by
  unfold updSharedGrp; repeat' split
  all_goals rfl

@[simp] lemma updSharedGrp_grp_right (st : ParseState) (i a b : String) :
    (updSharedGrp st i a b).grp_right = st.grp_right := by
  unfold updSharedGrp; repeat' split
  all_goals rfl

@[simp] lemma updSharedGrp_attr_diffs (st : ParseState) (i a b : String) :
    (updSharedGrp st i a b).attr_diffs = st.attr_diffs := by
  unfold updSharedGrp; repeat' split
  all_goals rfl

@[simp] lemma updSharedGrp_details (st : ParseState) (i a b : String) :
    (updSharedGrp st i a b).details = st.details := by
  unfold updSharedGrp; repeat' split
  all_goals rfl

@[simp] lemma updNonSharedGrp_var_left (st : ParseState) (i a b : String) :
    (updNonSharedGrp st i a b).var_left = st.var_left := by
  unfold updNonSharedGrp; repeat' split
  all_goals rfl

@[simp] lemma updNonSharedGrp_var_right (st : ParseState) (i a b : String) :
    (updNonSharedGrp st i a b).var_right = st.var_right := by
  unfold updNonSharedGrp; repeat' split
  all_goals rfl

@[simp] lemma updNonSharedGrp_var_shared (st : ParseState) (i a b : String) :
    (updNonSharedGrp st i a b).var_shared = st.var_shared := by
  unfold updNonSharedGrp; repeat' split
  all_goals rfl

@[simp] lemma updNonSharedGrp_grp_shared (st : ParseState) (i a b : String) :
    (updNonSharedGrp st i a b).grp_shared = st.grp_shared := by
  unfold updNonSharedGrp; repeat' split
  all_goals rfl

@[simp] lemma updNonSharedGrp_attr_diffs (st : ParseState) (i a b : String) :
    (updNonSharedGrp st i a b).attr_diffs = st.attr_diffs := by
  unfold updNonSharedGrp; repeat' split
  all_goals rfl

@[simp] lemma updNonSharedGrp_details (st : ParseState) (i a b : String) :
    (updNonSharedGrp st i a b).details = st.details := by
  unfold updNonSharedGrp; repeat' split
  all_goals rfl

/-! ## Structural lemmas about the parser loop. -/

lemma stepRow_short (st : ParseState) (row : List String) (h : row.length < 3) :
    stepRow st row = st := by
  unfold stepRow
  rw [if_pos h]

lemma isDetailRow_short (row : List String) (h : row.length < 3) :
    isDetailRow row = false := by
  unfold isDetailRow
  simp [h]

lemma stepRow_details (st : ParseState) (row : List String) :
    (stepRow st row).details
      = st.details ++ (if isDetailRow row then [stripTriple row] else []) := by
  by_cases h : row.length < 3
  · rw [stepRow_short st row h, isDetailRow_short row h]
    simp
  · unfold stepRow
    rw [if_neg h]
    simp only [updNonSharedGrp_details, updSharedGrp_details, updNonSharedVar_details,
      updSharedVar_details]
    unfold updDetails isDetailRow stripTriple
    by_cases hm : (if 3 < row.length then pyStrip (row.getD 3 "") else "") = "***"
    · rw [if_pos hm]
      simp only [List.getD, List.get?_eq_getElem?] at hm
      simp [h, hm]
    · rw [if_neg hm]
      simp only [List.getD, List.get?_eq_getElem?] at hm
      simp [h, hm]

lemma foldl_stepRow_details (rows : List (List String)) (st : ParseState) :
    (rows.foldl stepRow st).details
      = st.details ++ (rows.filter isDetailRow).map stripTriple := by
  induction rows generalizing st with
  | nil => simp
  | cons r rs ih =>
    rw [List.foldl_cons, ih, stepRow_details]
    cases hr : isDetailRow r <;> simp [List.filter_cons, hr]

lemma parseCsv_details (allRows : List (List String)) :
    (parseCsv allRows).difference_details
      = (allRows.tail.filter isDetailRow).map stripTriple := by
  show (parseCsvRows allRows.tail).details = _
  unfold parseCsvRows
  rw [foldl_stepRow_details]
  rfl

/-- The running product `count = 1; for s in shape: count *= int(s)` is the
product of the dimension lengths. -/
lemma foldl_mul_cast (l : List Nat) (i : Int) :
    l.foldl (fun c s => c * Int.ofNat s) i = i * (l.map Int.ofNat).prod := by
  induction l generalizing i with
  | nil => simp
  | cons a t ih =>
    rw [List.foldl_cons, ih, List.map_cons, List.prod_cons]
    ring

/-! ## Claim theorems. -/

/-- C1: the claim states that the attribute-difference count returned by the
parser equals the number of detail rows whose description is not a structural
label or contains "attribute" case-insensitively.  The code computes exactly
that number in its `attr_diffs` local but returns `len(details)` instead: on a
CSV whose single data row is `("dtype", "1", "2", "***")` the returned count
is 1 while the claimed formula (and the dead `attr_diffs` local) gives 0. -/
theorem C1_attr_count_divergence :
    (parseCsv [["desc", "col_a", "col_b", "marker"],
        ["dtype", "1", "2", "***"]]).attribute_difference_count = 1 ∧
    attrDiffCountClaim [["desc", "col_a", "col_b", "marker"],
        ["dtype", "1", "2", "***"]] = 0 ∧
    (parseCsvRows [["dtype", "1", "2", "***"]]).attr_diffs = 0 := by
  decide

/-- C2: for every CSV input, the attribute-difference count returned by the
parser equals the length of the returned detail-row list (the return
statement packages `len(details)` as the seventh output). -/
theorem C2_attr_count_eq_details_length (rows : List (List String)) :
    (parseCsv rows).attribute_difference_count
      = (parseCsv rows).difference_details.length := rfl

/-- C4: the detail-row list is exactly the in-file-order list of stripped
(description, value_a, value_b) triples of the data rows with at least 3
columns whose stripped marker column equals `***`; hence its length is at
most the number of data rows, and a row with no marker column (exactly 3
columns) is never a detail row. -/
theorem C4_details_characterization :
    (∀ rows : List (List String),
      (parseCsv rows).difference_details
          = (rows.tail.filter isDetailRow).map stripTriple ∧
      (parseCsv rows).difference_details.length ≤ rows.tail.length) ∧
    (∀ d a b : String, isDetailRow [d, a, b] = false) := by
  constructor
  · intro rows
    refine ⟨parseCsv_details rows, ?_⟩
    rw [parseCsv_details rows, List.length_map]
    exact List.length_filter_le _ _
  · intro d a b
    rfl

/-- C6: a CSV with no rows at all, or only a header row, yields all-zero
counters and an empty detail list; and a data row with fewer than 3 columns
leaves the parser state completely unchanged. -/
theorem C6_empty_and_short_rows :
    (parseCsv ([] : List (List String))
        = { variables_only_in_a := 0, variables_only_in_b := 0, variables_shared := 0,
            groups_only_in_a := 0, groups_only_in_b := 0, groups_shared := 0,
            attribute_difference_count := 0, difference_details := [] }) ∧
    (∀ hdr : List String,
      parseCsv [hdr]
        = { variables_only_in_a := 0, variables_only_in_b := 0, variables_shared := 0,
            groups_only_in_a := 0, groups_only_in_b := 0, groups_shared := 0,
            attribute_difference_count := 0, difference_details := [] }) ∧
    (∀ (st : ParseState) (row : List String), row.length < 3 → stepRow st row = st) :=
  ⟨rfl, fun _ => rfl, fun st row h => stepRow_short st row h⟩

/-- Witness for C6 at a concrete 2-column row. -/
theorem C6_empty_and_short_rows_witness :
    stepRow {} ["onlytwo", "cols"] = ({} : ParseState) :=
  C6_empty_and_short_rows.2.2 {} ["onlytwo", "cols"] (by decide)

/-- C10: the loop strips the marker column before comparing it with `***`
and stores the stripped first three columns in the detail triple; in
particular a marker of `" *** "` still yields a detail row, stored with
stripped fields. -/
theorem C10_marker_and_fields_stripped :
    (∀ (st : ParseState) (d a b m : String),
      (stepRow st [d, a, b, m]).details
        = st.details ++
            (if pyStrip m = "***" then [(pyStrip d, pyStrip a, pyStrip b)] else [])) ∧
    (parseCsv [["c1", "c2", "c3", "c4"],
        ["x", " 1 ", " 2 ", " *** "]]).difference_details = [("x", "1", "2")] := by
  constructor
  · intro st d a b m
    rw [stepRow_details]
    by_cases hm : pyStrip m = "***" <;>
      simp [isDetailRow, stripTriple, List.getD, hm]
  · decide

/-- C3 counterexample: the claim says a malformed value leaves the targeted
field's prior value unchanged, but for the non-shared counters a non-digit
value overwrites the prior value with 0: after a row setting only-in-A to 3,
a second matching row with a non-numeric value resets it to 0. -/
theorem C3_counterexample :
    (parseCsv [["desc", "col_a", "col_b"],
        ["Total # of non-shared variables", "3", "2"],
        ["Total # of non-shared variables", "oops", "2"]]).variables_only_in_a = 0 ∧
    (parseCsv [["desc", "col_a", "col_b"],
        ["Total # of non-shared variables", "3", "2"]]).variables_only_in_a = 3 := by
  decide

/-- C3 (amended): the parser never fails on malformed numeric text; for the
shared-variable and shared-group counters a row whose values both fail
integer parsing leaves the field's prior value unchanged, while for the
non-shared (only-in-A / only-in-B) counters a non-digit value sets the field
to 0, overwriting any prior value. -/
theorem C3_amended_parse_failure_behavior (st : ParseState) (d a b : String)
    (rest : List String) :
    (pyIn "Total # of shared variables" (pyStrip d) = true →
      pyIsDigit (pyStrip a) = false → pyInt? (pyStrip b) = none →
      (stepRow st (d :: a :: b :: rest)).var_shared = st.var_shared) ∧
    (pyIn "Total # of shared groups" (pyStrip d) = true →
      pyIsDigit (pyStrip a) = false → pyInt? (pyStrip b) = none →
      (stepRow st (d :: a :: b :: rest)).grp_shared = st.grp_shared) ∧
    (pyIn "Total # of non-shared variables" (pyStrip d) = true →
      (pyIsDigit (pyStrip a) = false →
        (stepRow st (d :: a :: b :: rest)).var_left = 0) ∧
      (pyIsDigit (pyStrip b) = false →
        (stepRow st (d :: a :: b :: rest)).var_right = 0)) ∧
    (pyIn "Total # of non-shared groups" (pyStrip d) = true →
      (pyIsDigit (pyStrip a) = false →
        (stepRow st (d :: a :: b :: rest)).grp_left = 0) ∧
      (pyIsDigit (pyStrip b) = false →
        (stepRow st (d :: a :: b :: rest)).grp_right = 0)) := by
  have hlen : ¬((d :: a :: b :: rest).length < 3) := by
    simp [List.length_cons]
  refine ⟨fun h1 h2 h3 => ?_, fun h1 h2 h3 => ?_,
    fun h1 => ⟨fun h2 => ?_, fun h2 => ?_⟩, fun h1 => ⟨fun h2 => ?_, fun h2 => ?_⟩⟩
  all_goals
    unfold stepRow
    rw [if_neg hlen]
    simp only [List.getD_cons_zero, List.getD_cons_succ]
  · simp [updSharedVar, h1, h2, h3]
  · simp [updSharedGrp, h1, h2, h3]
  · simp [updNonSharedVar, h1, h2]
  · simp [updNonSharedVar, h1, h2]
  · simp [updNonSharedGrp, h1, h2]
  · simp [updNonSharedGrp, h1, h2]

/-- Witness for C3 (amended) on a row whose description contains all four
counter needles and whose values fail integer parsing. -/
theorem C3_amended_parse_failure_behavior_witness :
    (stepRow {} ["Total # of shared variables Total # of non-shared variables Total # of shared groups Total # of non-shared groups", "x", "y"]).var_shared
        = ({} : ParseState).var_shared ∧
    (stepRow {} ["Total # of shared variables Total # of non-shared variables Total # of shared groups Total # of non-shared groups", "x", "y"]).grp_shared
        = ({} : ParseState).grp_shared ∧
    (stepRow {} ["Total # of shared variables Total # of non-shared variables Total # of shared groups Total # of non-shared groups", "x", "y"]).var_left = 0 ∧
    (stepRow {} ["Total # of shared variables Total # of non-shared variables Total # of shared groups Total # of non-shared groups", "x", "y"]).var_right = 0 ∧
    (stepRow {} ["Total # of shared variables Total # of non-shared variables Total # of shared groups Total # of non-shared groups", "x", "y"]).grp_left = 0 ∧
    (stepRow {} ["Total # of shared variables Total # of non-shared variables Total # of shared groups Total # of non-shared groups", "x", "y"]).grp_right = 0 := by
  have h := C3_amended_parse_failure_behavior {}
    "Total # of shared variables Total # of non-shared variables Total # of shared groups Total # of non-shared groups"
    "x" "y" []
  exact ⟨h.1 (by decide) (by decide) (by decide),
    h.2.1 (by decide) (by decide) (by decide),
    (h.2.2.1 (by decide)).1 (by decide),
    (h.2.2.1 (by decide)).2 (by decide),
    (h.2.2.2 (by decide)).1 (by decide),
    (h.2.2.2 (by decide)).2 (by decide)⟩

/-- C5: a row whose description contains "Total # of shared variables" sets
the shared-variable count to value_a when value_a is all digits, else to
value_b when value_b parses as an integer; a row whose description contains
"Total # of non-shared variables" sets only-in-A to value_a if all digits
else 0 and only-in-B to value_b if all digits else 0; the same rules hold
for the group-count descriptions. -/
theorem C5_counter_update_rules (st : ParseState) (d a b : String)
    (rest : List String) :
    (pyIn "Total # of shared variables" (pyStrip d) = true →
      (pyIsDigit (pyStrip a) = true →
        (stepRow st (d :: a :: b :: rest)).var_shared = digitsVal (pyStrip a)) ∧
      (pyIsDigit (pyStrip a) = false → ∀ n : Int, pyInt? (pyStrip b) = some n →
        (stepRow st (d :: a :: b :: rest)).var_shared = n)) ∧
    (pyIn "Total # of non-shared variables" (pyStrip d) = true →
      (stepRow st (d :: a :: b :: rest)).var_left
          = (if pyIsDigit (pyStrip a) then digitsVal (pyStrip a) else 0) ∧
      (stepRow st (d :: a :: b :: rest)).var_right
          = (if pyIsDigit (pyStrip b) then digitsVal (pyStrip b) else 0)) ∧
    (pyIn "Total # of shared groups" (pyStrip d) = true →
      (pyIsDigit (pyStrip a) = true →
        (stepRow st (d :: a :: b :: rest)).grp_shared = digitsVal (pyStrip a)) ∧
      (pyIsDigit (pyStrip a) = false → ∀ n : Int, pyInt? (pyStrip b) = some n →
        (stepRow st (d :: a :: b :: rest)).grp_shared = n)) ∧
    (pyIn "Total # of non-shared groups" (pyStrip d) = true →
      (stepRow st (d :: a :: b :: rest)).grp_left
          = (if pyIsDigit (pyStrip a) then digitsVal (pyStrip a) else 0) ∧
      (stepRow st (d :: a :: b :: rest)).grp_right
          = (if pyIsDigit (pyStrip b) then digitsVal (pyStrip b) else 0)) := by
  have hlen : ¬((d :: a :: b :: rest).length < 3) := by
    simp [List.length_cons]
  refine ⟨fun h1 => ⟨fun h2 => ?_, fun h2 n h3 => ?_⟩,
    fun h1 => ⟨?_, ?_⟩,
    fun h1 => ⟨fun h2 => ?_, fun h2 n h3 => ?_⟩,
    fun h1 => ⟨?_, ?_⟩⟩
  all_goals
    unfold stepRow
    rw [if_neg hlen]
    simp only [List.getD_cons_zero, List.getD_cons_succ]
  · simp [updSharedVar, h1, h2]
  · simp [updSharedVar, h1, h2, h3]
  · simp [updNonSharedVar, h1]
  · simp [updNonSharedVar, h1]
  · simp [updSharedGrp, h1, h2]
  · simp [updSharedGrp, h1, h2, h3]
  · simp [updNonSharedGrp, h1]
  · simp [updNonSharedGrp, h1]

/-- Witness for C5 at the spec's two example rows. -/
theorem C5_counter_update_rules_witness :
    (stepRow {} ["Total # of shared variables", "5", "", ""]).var_shared = 5 ∧
    (stepRow {} ["Total # of non-shared variables", "3", "2", ""]).var_left = 3 ∧
    (stepRow {} ["Total # of non-shared variables", "3", "2", ""]).var_right = 2 := by
  have h1 := C5_counter_update_rules {} "Total # of shared variables" "5" "" [""]
  have h2 := C5_counter_update_rules {} "Total # of non-shared variables" "3" "2" [""]
  refine ⟨?_, ?_, ?_⟩
  · exact ((h1.1 (by decide)).1 (by decide)).trans (by decide)
  · exact ((h2.2.1 (by decide)).1).trans (by decide)
  · exact ((h2.2.1 (by decide)).2).trans (by decide)

/-- C7: `run_comparison` forwards each boolean option unchanged to the
external `ncompare.compare` call: `only_differences` as `only_diffs`,
`include_chunking` as `show_chunks`, `include_attributes` as
`show_attributes`, for every combination of the three flags. -/
theorem C7_options_forwarded (env : ExternalEnv) (opts : ComparisonOptions) :
    (run_comparison env opts).2.only_diffs = opts.only_differences ∧
    (run_comparison env opts).2.show_chunks = opts.include_chunking ∧
    (run_comparison env opts).2.show_attributes = opts.include_attributes :=
  ⟨rfl, rfl, rfl⟩

/-- C8: after the external call, the parser's seven counters and the detail
list are merged into the result exactly when the CSV report file exists
(in which case its path is recorded), otherwise they keep their zero/empty
defaults and the CSV path stays empty; the text-report path is recorded only
when a text report was requested and the file exists; every other result
field is unaffected by these two steps. -/
theorem C8_merge_and_report_paths (env : ExternalEnv) (opts : ComparisonOptions) :
    ((run_comparison env opts).1.variables_only_in_a
        = (if env.csv_exists then (parseCsv env.csv_rows).variables_only_in_a else 0)) ∧
    ((run_comparison env opts).1.variables_only_in_b
        = (if env.csv_exists then (parseCsv env.csv_rows).variables_only_in_b else 0)) ∧
    ((run_comparison env opts).1.variables_shared
        = (if env.csv_exists then (parseCsv env.csv_rows).variables_shared else 0)) ∧
    ((run_comparison env opts).1.groups_only_in_a
        = (if env.csv_exists then (parseCsv env.csv_rows).groups_only_in_a else 0)) ∧
    ((run_comparison env opts).1.groups_only_in_b
        = (if env.csv_exists then (parseCsv env.csv_rows).groups_only_in_b else 0)) ∧
    ((run_comparison env opts).1.groups_shared
        = (if env.csv_exists then (parseCsv env.csv_rows).groups_shared else 0)) ∧
    ((run_comparison env opts).1.attribute_difference_count
        = (if env.csv_exists
            then ((parseCsv env.csv_rows).attribute_difference_count : Int) else 0)) ∧
    ((run_comparison env opts).1.difference_details
        = (if env.csv_exists then (parseCsv env.csv_rows).difference_details else [])) ∧
    ((run_comparison env opts).1.report_csv_path
        = (if env.csv_exists then
            (if opts.report_csv_path = "" then env.temp_csv_path else opts.report_csv_path)
          else "")) ∧
    ((run_comparison env opts).1.report_text_path
        = (if opts.report_text_path = "" then ""
           else if env.txt_exists then opts.report_text_path else "")) ∧
    (run_comparison env opts).1.total_differences = env.total ∧
    (run_comparison env opts).1.file_a_path = env.path_a ∧
    (run_comparison env opts).1.file_b_path = env.path_b ∧
    (run_comparison env opts).1.dimensions_a = env.dims_a ∧
    (run_comparison env opts).1.dimensions_b = env.dims_b ∧
    (run_comparison env opts).1.variables_a = env.vars_a ∧
    (run_comparison env opts).1.variables_b = env.vars_b := by
  cases hc : env.csv_exists <;>
    cases ht : env.txt_exists <;>
      by_cases hp : opts.report_text_path = "" <;>
        simp [run_comparison, hc, ht, hp]

/-- C9: every (name, shape-description, element-count) triple collected by
`_collect_variables_with_shapes` comes from a source variable of the file —
a root variable whose name is the triple's name, or a variable of a
non-skipped root group named `group/variable` — and the triple's
shape-description is that variable's shape tuple rendered by `str(...)` while
its element count is the product of that same variable's shape dimension
lengths, hence 1 when that shape is empty (a scalar). -/
theorem C9_point_count_is_variable_shape_product (rootVars : List SourceVar)
    (groups : List FileGroup) (t : String × String × Int)
    (ht : t ∈ collectVariablesWithShapes rootVars groups) :
    ∃ v : SourceVar,
      ((v ∈ rootVars ∧ t.1 = v.name) ∨
        (∃ g : FileGroup, g ∈ groups.filter (fun g => g.ok) ∧ v ∈ g.vars ∧
          t.1 = g.gname ++ "/" ++ v.name)) ∧
      t.2.1 = pyTupleRepr v.shape ∧
      t.2.2 = (v.shape.map Int.ofNat).prod ∧
      (v.shape = [] → t.2.2 = 1) := by
  unfold collectVariablesWithShapes at ht
  rcases List.mem_append.mp ht with hroot | hgrp
  · rcases List.mem_map.mp hroot with ⟨v, hv, rfl⟩
    refine ⟨v, Or.inl ⟨hv, rfl⟩, rfl, ?_, fun hsh => by simp [mkTriple, hsh]⟩
    show v.shape.foldl (fun c s => c * Int.ofNat s) 1 = _
    rw [foldl_mul_cast, one_mul]
  · rcases List.mem_flatMap.mp hgrp with ⟨g, hg, hmem⟩
    rcases List.mem_map.mp hmem with ⟨v, hv, rfl⟩
    refine ⟨v, Or.inr ⟨g, hg, hv, rfl⟩, rfl, ?_, fun hsh => by simp [mkTriple, hsh]⟩
    show v.shape.foldl (fun c s => c * Int.ofNat s) 1 = _
    rw [foldl_mul_cast, one_mul]

/-- Witness for C9 on a file with one root variable of shape (2, 3). -/
theorem C9_point_count_is_variable_shape_product_witness :
    ∃ v : SourceVar,
      ((v ∈ ([⟨"v", [2, 3]⟩] : List SourceVar) ∧
          (("v", pyTupleRepr [2, 3], (6 : Int)) : String × String × Int).1 = v.name) ∨
        (∃ g : FileGroup, g ∈ ([] : List FileGroup).filter (fun g => g.ok) ∧ v ∈ g.vars ∧
          (("v", pyTupleRepr [2, 3], (6 : Int)) : String × String × Int).1
            = g.gname ++ "/" ++ v.name)) ∧
      (("v", pyTupleRepr [2, 3], (6 : Int)) : String × String × Int).2.1
          = pyTupleRepr v.shape ∧
      (("v", pyTupleRepr [2, 3], (6 : Int)) : String × String × Int).2.2
          = (v.shape.map Int.ofNat).prod ∧
      (v.shape = [] →
        (("v", pyTupleRepr [2, 3], (6 : Int)) : String × String × Int).2.2 = 1) :=
  C9_point_count_is_variable_shape_product [⟨"v", [2, 3]⟩] []
    ("v", pyTupleRepr [2, 3], 6) (by decide)
